import Mathlib

/-!
Verification of the credential-authentication backend (Express/MongoDB/bcrypt/JWT
server in the repository source). The backend's routes (`POST /api/register`,
`POST /api/login`, `GET /api/profile`, `GET /api/verify`) and its
`authenticateToken` middleware are embedded as pure Lean functions over an
explicit store state (a list of user records standing for the `users`
collection). The external primitives bcrypt (hash/compare) and jsonwebtoken
(sign/verify) are modelled as idealized, collision-free versions of their
documented behaviour: a bcrypt hash is the salt together with a keyed digest,
and a JWT signature is a MAC over the claim set keyed by the server secret.
-/

namespace AuthKernel

/-- Idealized model of a bcrypt hash: the salt together with a collision-free
digest of the password. Real bcrypt stores the salt inside the hash string and
recomputes the digest on compare; the digest is modelled as an injective
function of the password so that the model is collision-free. -/
structure BcryptHash where
  salt : Nat
  digest : String
deriving DecidableEq, Repr

/-- Model of `bcrypt.hash(password, saltRounds)` at a fixed salt: pairs the salt
with the idealized digest of the password. -/
def bcryptHash (salt : Nat) (password : String) : BcryptHash :=
  ⟨salt, password⟩

/-- Model of `bcrypt.compare(password, hash)`: recompute the hash using the
stored salt and compare with the stored digest. -/
def bcryptCompare (password : String) (h : BcryptHash) : Bool :=
  bcryptHash h.salt password == h

/-- The claim set embedded in a JWT issued by the backend:
`jwt.sign({ userId, email }, JWT_SECRET, { expiresIn: '7d' })` adds the
issued-at and expires-at timestamps. -/
structure Claims where
  userId : Nat
  email : String
  iat : Nat
  exp : Nat
deriving DecidableEq, Repr

/-- Idealized MAC over a claim set keyed by the server secret. Modelled as the
pair of the secret and the claims, which makes it injective in the claims for a
fixed secret (collision-freeness of the signature scheme). -/
structure Sig where
  key : String
  payload : Claims
deriving DecidableEq, Repr

/-- The MAC computation used both at signing and at verification. -/
def jwtMac (secret : String) (c : Claims) : Sig :=
  ⟨secret, c⟩

/-- A bearer token as presented by a client: either a structurally well-formed
token carrying a claim set and a signature segment, or an unparseable string. -/
inductive Token where
  | wellFormed (claims : Claims) (sig : Sig)
  | malformed (raw : String)
deriving DecidableEq, Repr

/-- Seconds in the 7-day validity window (`expiresIn: '7d'` in the source). -/
def sevenDays : Nat := 7 * 24 * 60 * 60

/-- Model of `jwt.sign({ userId, email }, JWT_SECRET, { expiresIn: '7d' })`:
embed issued-at = now and expires-at = now + 7 days, and sign the claim set
with the server secret. -/
def jwtSign (secret : String) (userId : Nat) (email : String) (now : Nat) : Token :=
  let c : Claims := ⟨userId, email, now, now + sevenDays⟩
  .wellFormed c (jwtMac secret c)

/-- The distinct failure kinds of `jwt.verify` (jsonwebtoken raises
JsonWebTokenError for malformed tokens and bad signatures, and
TokenExpiredError for expired ones). -/
inductive VerifyError where
  | MalformedToken
  | InvalidSignature
  | Expired
deriving DecidableEq, Repr

/-- Model of `jwt.verify(token, JWT_SECRET, callback)`: reject unparseable
tokens, then check the signature against the recomputed MAC, then check expiry
(jsonwebtoken fails with TokenExpiredError when now is at or past `exp`);
on success return the embedded claim set unchanged. -/
def jwtVerify (secret : String) (now : Nat) : Token → Except VerifyError Claims
  | .malformed _ => .error .MalformedToken
  | .wellFormed c s =>
      if s = jwtMac secret c then
        if c.exp ≤ now then .error .Expired
        else .ok c
      else .error .InvalidSignature

/-- A document of the `users` collection: the fields the register handler
stores (`{ name, email, password: hashedPassword, createdAt }`), plus the
`_id` MongoDB assigns at insert, modelled as a Nat. -/
structure UserRecord where
  id : Nat
  name : String
  email : String
  password : BcryptHash
  createdAt : Nat
deriving DecidableEq, Repr

/-- The `users` collection, as the ordered list of inserted documents. -/
abbrev Store := List UserRecord

/-- Model of `db.collection('users').findOne({ email })`: MongoDB equality
match on the email field is exact (case-sensitive). -/
def findByEmail (store : Store) (email : String) : Option UserRecord :=
  store.find? fun u => u.email == email

/-- Model of `db.collection('users').findOne({ _id })`. -/
def findById (store : Store) (id : Nat) : Option UserRecord :=
  store.find? fun u => u.id == id

/-- Model of `insertOne`: append the document with a fresh id. -/
def insertOne (store : Store) (name email : String) (password : BcryptHash)
    (createdAt : Nat) : UserRecord × Store :=
  let r : UserRecord := ⟨store.length, name, email, password, createdAt⟩
  (r, store ++ [r])

/-- A request-body field: `none` models a missing JSON field, `some s` a
present string field. In the handlers a field fails the `!field` check exactly
when it is missing or the empty string. -/
def fieldMissing : Option String → Prop
  | none => True
  | some s => s = ""

instance (o : Option String) : Decidable (fieldMissing o) := by
  cases o with
  | none => exact isTrue trivial
  | some s => exact inferInstanceAs (Decidable (s = ""))

/-- The client-visible user projection `{ id, name, email }` returned by the
register and login handlers; it has no password field. -/
structure AuthUser where
  id : Nat
  name : String
  email : String
deriving DecidableEq, Repr

/-- The error outcomes of the register handler. -/
inductive RegisterError where
  | InvalidInput
  | DuplicateAccount
deriving DecidableEq, Repr

/-- The client-facing message for each register error
(`'All fields are required'` and `'User already exists'` in the source). -/
def registerMessage : RegisterError → String
  | .InvalidInput => "All fields are required"
  | .DuplicateAccount => "User already exists"

/-- The 201 payload of the register handler: the token and the projection. -/
structure RegisterOk where
  token : Token
  user : AuthUser
deriving DecidableEq, Repr

/-- Model of the `POST /api/register` handler: require all three fields
non-missing and non-empty, reject if `findOne({ email })` finds an existing
user, hash the password, insert the new document, sign a token over
`{ userId: insertedId, email }`, and answer with the token and the
`{ id, name, email }` projection. Returns the response together with the
store after the request. -/
def register (secret : String) (salt now : Nat) (store : Store)
    (name₀ email₀ password₀ : Option String) :
    Except RegisterError RegisterOk × Store :=
  match name₀, email₀, password₀ with
  | some name, some email, some password =>
      if email = "" ∨ password = "" ∨ name = "" then
        (.error .InvalidInput, store)
      else
        match findByEmail store email with
        | some _ => (.error .DuplicateAccount, store)
        | none =>
            let hashed := bcryptHash salt password
            let (r, store₁) := insertOne store name email hashed now
            let token := jwtSign secret r.id email now
            (.ok ⟨token, ⟨r.id, name, email⟩⟩, store₁)
  | _, _, _ => (.error .InvalidInput, store)

/-- The error outcomes of the login handler. -/
inductive LoginError where
  | InvalidInput
  | InvalidCredentials
deriving DecidableEq, Repr

/-- The client-facing message for each login error
(`'Email and password are required'` and `'Invalid credentials'`). The source
uses the same `'Invalid credentials'` literal for both the unknown-email and
the wrong-password branches. -/
def loginMessage : LoginError → String
  | .InvalidInput => "Email and password are required"
  | .InvalidCredentials => "Invalid credentials"

/-- The 200 payload of the login handler. -/
structure LoginOk where
  token : Token
  user : AuthUser
deriving DecidableEq, Repr

/-- Model of the `POST /api/login` handler: require both fields, look the user
up by email, fail with the same `InvalidCredentials` error whether the lookup
misses or `bcrypt.compare` rejects, and otherwise sign a fresh token over
`{ userId: user._id, email: user.email }`. The handler never writes the
store. -/
def login (secret : String) (now : Nat) (store : Store)
    (email₀ password₀ : Option String) : Except LoginError LoginOk :=
  match email₀, password₀ with
  | some email, some password =>
      if email = "" ∨ password = "" then .error .InvalidInput
      else
        match findByEmail store email with
        | none => .error .InvalidCredentials
        | some u =>
            if bcryptCompare password u.password then
              .ok ⟨jwtSign secret u.id u.email now, ⟨u.id, u.name, u.email⟩⟩
            else .error .InvalidCredentials
  | _, _ => .error .InvalidInput

/-- The error outcomes of the profile handler: a token failure from the
`authenticateToken` middleware (mapped to 401/403 by the boundary), or the 404
when the record behind the token is gone. -/
inductive ProfileError where
  | TokenError (e : VerifyError)
  | NotFound
deriving DecidableEq, Repr

/-- The profile response: the stored document with the password field excluded
by the `projection: { password: 0 }` of the source's `findOne`. -/
structure ProfileUser where
  id : Nat
  name : String
  email : String
  createdAt : Nat
deriving DecidableEq, Repr

/-- The projection `{ password: 0 }` applied to a stored document. -/
def dropPassword (r : UserRecord) : ProfileUser :=
  ⟨r.id, r.name, r.email, r.createdAt⟩

/-- Model of the `GET /api/profile` route: `authenticateToken` verifies the
bearer token, then the handler reads the store by the `userId` claim with the
password excluded, answering 404 if the document is absent. The route performs
no write. -/
def profile (secret : String) (now : Nat) (store : Store) (token : Token) :
    Except ProfileError ProfileUser :=
  match jwtVerify secret now token with
  | .error e => .error (.TokenError e)
  | .ok c =>
      match findById store c.userId with
      | none => .error .NotFound
      | some u => .ok (dropPassword u)

/-- Model of the `GET /api/verify` route: `authenticateToken` verifies the
bearer token and the handler answers with the decoded claims
(`res.json({ message: 'Token is valid', user: req.user })`). The store is
part of the server state the route runs against but the handler never reads or
writes it; the route returns the response together with the store after the
request. -/
def verifyRoute (secret : String) (now : Nat) (store : Store) (token : Token) :
    (Except VerifyError Claims) × Store :=
  (jwtVerify secret now token, store)

/-- ASCII case folding of a single character. -/
def lowerChar (c : Char) : Char :=
  if 65 ≤ c.toNat ∧ c.toNat ≤ 90 then Char.ofNat (c.toNat + 32) else c

/-- Case-insensitive email normalization (ASCII lower-casing), the comparison
key the specification assumes for email uniqueness. -/
def normEmail (s : String) : String := ⟨s.data.map lowerChar⟩

/-- Whether an Except value is a success. -/
def exceptIsOk {ε α : Type} : Except ε α → Bool
  | .ok _ => true
  | .error _ => false

/-- Decidable equality on request outcomes, so that concrete runs of the
handlers can be checked by evaluation. -/
instance {ε α : Type} [DecidableEq ε] [DecidableEq α] : DecidableEq (Except ε α)
  | .ok a, .ok b =>
      if h : a = b then .isTrue (by rw [h]) else .isFalse (by simp [h])
  | .ok _, .error _ => .isFalse (by simp)
  | .error _, .ok _ => .isFalse (by simp)
  | .error a, .error b =>
      if h : a = b then .isTrue (by rw [h]) else .isFalse (by simp [h])

/-- C6: verifying a password against the hash produced from it always
succeeds, and verifying any different password against that hash always
fails. -/
theorem bcrypt_roundtrip (salt : Nat) (p q : String) (hne : q ≠ p) :
    bcryptCompare p (bcryptHash salt p) = true ∧
    bcryptCompare q (bcryptHash salt p) = false := by
  constructor
  · simp [bcryptCompare, bcryptHash]
  · simp [bcryptCompare, bcryptHash, hne]

/-- Witness for C6 at salt 0, password "s3cret!", other password "wrong". -/
theorem bcrypt_roundtrip_witness :
    bcryptCompare "s3cret!" (bcryptHash 0 "s3cret!") = true ∧
    bcryptCompare "wrong" (bcryptHash 0 "s3cret!") = false :=
  bcrypt_roundtrip 0 "s3cret!" "wrong" (by decide)

/-- C4: a well-formed, correctly signed token whose expiry lies in the past
fails verification with the Expired error kind, which is distinct from
InvalidSignature and from MalformedToken. -/
theorem verify_expired (secret : String) (now : Nat) (c : Claims) (s : Sig)
    (hs : s = jwtMac secret c) (hexp : c.exp < now) :
    jwtVerify secret now (.wellFormed c s) = .error .Expired ∧
    VerifyError.Expired ≠ VerifyError.InvalidSignature ∧
    VerifyError.Expired ≠ VerifyError.MalformedToken := by
  subst hs
  refine ⟨?_, by simp, by simp⟩
  simp [jwtVerify, Nat.le_of_lt hexp]

/-- Witness for C4: a token signed over claims expiring at time 5, verified at
time 10. -/
theorem verify_expired_witness :
    jwtVerify "s" 10 (.wellFormed ⟨0, "e@x", 0, 5⟩ (jwtMac "s" ⟨0, "e@x", 0, 5⟩)) =
      .error .Expired ∧
    VerifyError.Expired ≠ VerifyError.InvalidSignature ∧
    VerifyError.Expired ≠ VerifyError.MalformedToken :=
  verify_expired "s" 10 ⟨0, "e@x", 0, 5⟩ (jwtMac "s" ⟨0, "e@x", 0, 5⟩) rfl (by decide)

/-- C5: for a token issued by jwtSign, replacing its signature segment by any
different signature makes verification fail with InvalidSignature, and
replacing its claim set by any different claim set while keeping the original
signature also fails with InvalidSignature. -/
theorem verify_tampered (secret : String) (uid : Nat) (em : String)
    (t₀ now : Nat) (c tampered : Claims) (s badSig : Sig)
    (hiss : jwtSign secret uid em t₀ = .wellFormed c s)
    (hbad : badSig ≠ s) (hc : tampered ≠ c) :
    jwtVerify secret now (.wellFormed c badSig) = .error .InvalidSignature ∧
    jwtVerify secret now (.wellFormed tampered s) = .error .InvalidSignature := by
  simp only [jwtSign, Token.wellFormed.injEq] at hiss
  obtain ⟨hc₀, hs₀⟩ := hiss
  subst hc₀
  subst hs₀
  constructor
  · simp [jwtVerify, hbad]
  · simp [jwtVerify, jwtMac, Sig.mk.injEq, Ne.symm hc]

/-- Witness for C5: the token issued over userId 1, email "e@x" at time 0,
with a wrong-key signature substituted, and with a claim set whose email was
flipped. -/
theorem verify_tampered_witness :
    jwtVerify "s" 0 (.wellFormed ⟨1, "e@x", 0, sevenDays⟩ (jwtMac "k" ⟨1, "e@x", 0, sevenDays⟩)) =
      .error .InvalidSignature ∧
    jwtVerify "s" 0 (.wellFormed ⟨1, "f@x", 0, sevenDays⟩ (jwtMac "s" ⟨1, "e@x", 0, sevenDays⟩)) =
      .error .InvalidSignature :=
  verify_tampered "s" 1 "e@x" 0 0 ⟨1, "e@x", 0, sevenDays⟩ ⟨1, "f@x", 0, sevenDays⟩
    (jwtMac "s" ⟨1, "e@x", 0, sevenDays⟩) (jwtMac "k" ⟨1, "e@x", 0, sevenDays⟩)
    rfl (by decide) (by decide)

/-- C3: with non-empty fields, login on an email that matches no stored record
and login on an email whose record rejects the supplied password produce the
same error kind InvalidCredentials, carrying the same client-facing message. -/
theorem login_enumeration_resistant
    (secret₁ secret₂ : String) (now₁ now₂ : Nat) (store₁ store₂ : Store)
    (e₁ p₁ e₂ p₂ : String) (u : UserRecord)
    (he₁ : e₁ ≠ "") (hp₁ : p₁ ≠ "") (he₂ : e₂ ≠ "") (hp₂ : p₂ ≠ "")
    (hmiss : findByEmail store₁ e₁ = none)
    (hhit : findByEmail store₂ e₂ = some u)
    (hbad : bcryptCompare p₂ u.password = false) :
    login secret₁ now₁ store₁ (some e₁) (some p₁) = .error .InvalidCredentials ∧
    login secret₂ now₂ store₂ (some e₂) (some p₂) = .error .InvalidCredentials ∧
    loginMessage .InvalidCredentials = "Invalid credentials" := by
  refine ⟨?_, ?_, rfl⟩
  · simp [login, he₁, hp₁, hmiss]
  · simp [login, he₂, hp₂, hhit, hbad]

/-- Witness for C3: a store holding one record for "ada@example.com" and a
wrong password, against an empty store and an unknown email. -/
theorem login_enumeration_resistant_witness :
    login "s" 0 [] (some "ghost@x") (some "pw") = .error .InvalidCredentials ∧
    login "s" 0 [⟨0, "Ada", "ada@example.com", bcryptHash 0 "s3cret!", 0⟩]
        (some "ada@example.com") (some "wrong") = .error .InvalidCredentials ∧
    loginMessage .InvalidCredentials = "Invalid credentials" :=
  login_enumeration_resistant "s" "s" 0 0 [] [⟨0, "Ada", "ada@example.com", bcryptHash 0 "s3cret!", 0⟩]
    "ghost@x" "pw" "ada@example.com" "wrong" ⟨0, "Ada", "ada@example.com", bcryptHash 0 "s3cret!", 0⟩
    (by decide) (by decide) (by decide) (by decide) (by decide) (by decide) (by decide)

/-- C1: with all three fields non-empty and the email not yet registered,
register succeeds and verifying the returned token at the same instant
succeeds with a claim set whose email equals the email given to register. -/
theorem register_then_verify (secret : String) (salt now : Nat) (store : Store)
    (name email password : String)
    (hn : name ≠ "") (he : email ≠ "") (hp : password ≠ "")
    (hfree : findByEmail store email = none) :
    ∃ okr claims,
      (register secret salt now store (some name) (some email) (some password)).1 =
        .ok okr ∧
      jwtVerify secret now okr.token = .ok claims ∧
      claims.email = email := by
  refine ⟨⟨jwtSign secret store.length email now, ⟨store.length, name, email⟩⟩,
    ⟨store.length, email, now, now + sevenDays⟩, ?_, ?_, rfl⟩
  · simp [register, he, hp, hn, hfree, insertOne]
  · simp [jwtSign, jwtVerify, sevenDays]

/-- Witness for C1: registering Ada into the empty store and verifying the
returned token. -/
theorem register_then_verify_witness :
    ∃ okr claims,
      (register "s" 0 0 [] (some "Ada") (some "ada@example.com") (some "s3cret!")).1 =
        .ok okr ∧
      jwtVerify "s" 0 okr.token = .ok claims ∧
      claims.email = "ada@example.com" :=
  register_then_verify "s" 0 0 [] "Ada" "ada@example.com" "s3cret!"
    (by decide) (by decide) (by decide) (by decide)

/-- C8: the verify route's response is the same whatever the store contents,
the route leaves the store unchanged, and on a token that passes the signature
and expiry checks it returns exactly the claim set embedded in the token. -/
theorem verify_route_pure (secret : String) (now : Nat) (store₁ store₂ : Store)
    (token : Token) (c : Claims) (s : Sig)
    (hs : s = jwtMac secret c) (hexp : now < c.exp) :
    (verifyRoute secret now store₁ token).1 = (verifyRoute secret now store₂ token).1 ∧
    (verifyRoute secret now store₁ token).2 = store₁ ∧
    (verifyRoute secret now store₁ (.wellFormed c s)).1 = .ok c := by
  subst hs
  refine ⟨rfl, rfl, ?_⟩
  simp [verifyRoute, jwtVerify]
  omega

/-- Witness for C8: the same token checked against the empty store and a
one-record store. -/
theorem verify_route_pure_witness :
    (verifyRoute "s" 0 [] (.wellFormed ⟨1, "e@x", 0, 5⟩ (jwtMac "s" ⟨1, "e@x", 0, 5⟩))).1 =
      (verifyRoute "s" 0 [⟨0, "N", "n@x", bcryptHash 0 "p", 0⟩]
        (.wellFormed ⟨1, "e@x", 0, 5⟩ (jwtMac "s" ⟨1, "e@x", 0, 5⟩))).1 ∧
    (verifyRoute "s" 0 [] (.wellFormed ⟨1, "e@x", 0, 5⟩ (jwtMac "s" ⟨1, "e@x", 0, 5⟩))).2 = [] ∧
    (verifyRoute "s" 0 [] (.wellFormed ⟨1, "e@x", 0, 5⟩ (jwtMac "s" ⟨1, "e@x", 0, 5⟩))).1 =
      .ok ⟨1, "e@x", 0, 5⟩ :=
  verify_route_pure "s" 0 [] [⟨0, "N", "n@x", bcryptHash 0 "p", 0⟩]
    (.wellFormed ⟨1, "e@x", 0, 5⟩ (jwtMac "s" ⟨1, "e@x", 0, 5⟩))
    ⟨1, "e@x", 0, 5⟩ (jwtMac "s" ⟨1, "e@x", 0, 5⟩) rfl (by decide)

/-- C7: register answers InvalidInput with the store untouched exactly when
name, email or password is missing or empty, and login answers InvalidInput
exactly when email or password is missing or empty; both equivalences hold for
every store, so the validation outcome is independent of any store lookup or
insert. -/
theorem validation_before_store (secret : String) (salt now : Nat) (store : Store)
    (name₀ email₀ password₀ : Option String) :
    (register secret salt now store name₀ email₀ password₀ =
        (.error .InvalidInput, store) ↔
      fieldMissing name₀ ∨ fieldMissing email₀ ∨ fieldMissing password₀) ∧
    (login secret now store email₀ password₀ = .error .InvalidInput ↔
      fieldMissing email₀ ∨ fieldMissing password₀) := by
  constructor
  · rcases name₀ with _ | n <;> rcases email₀ with _ | e <;> rcases password₀ with _ | p <;>
      simp [register, fieldMissing]
    constructor
    · intro h
      by_contra hcon
      push_neg at hcon
      obtain ⟨hn, he, hp⟩ := hcon
      have h₂ := h he hp hn
      rcases hfind : findByEmail store e with _ | u <;> rw [hfind] at h₂ <;>
        simp [insertOne] at h₂
    · intro h he hp hn
      rcases h with h | h | h <;> contradiction
  · rcases email₀ with _ | e <;> rcases password₀ with _ | p <;>
      simp [login, fieldMissing]
    constructor
    · intro h
      by_contra hcon
      push_neg at hcon
      obtain ⟨he, hp⟩ := hcon
      have h₂ := h he hp
      rcases hfind : findByEmail store e with _ | u <;> rw [hfind] at h₂
      · simp at h₂
      · rcases hcmp : bcryptCompare p u.password <;> simp [hcmp] at h₂
    · intro h he hp
      rcases h with h | h <;> contradiction

/-- C2 fails on the code: the duplicate check is the exact-match query
`findOne({ email })`, so after a successful register for "A@x.com" a second
register for "a@x.com" — the same email up to case-insensitive
normalization — does not fail with DuplicateAccount, and the store ends up
with two records for that normalized email. -/
theorem register_duplicate_case_cex :
    exceptIsOk (register "s" 0 0 [] (some "Ada") (some "A@x.com") (some "pw")).1 = true ∧
    (register "s" 0 0 ((register "s" 0 0 [] (some "Ada") (some "A@x.com") (some "pw")).2)
        (some "Bob") (some "a@x.com") (some "pw")).1 ≠ .error .DuplicateAccount ∧
    (((register "s" 0 0 ((register "s" 0 0 [] (some "Ada") (some "A@x.com") (some "pw")).2)
        (some "Bob") (some "a@x.com") (some "pw")).2).filter
        (fun u => normEmail u.email == normEmail "a@x.com")).length = 2 := by
  decide

/-- C2 amended to the exact-match semantics of the code: after a successful
register for email e, a second register with the same e (exact, case-sensitive
equality) and non-empty fields fails with DuplicateAccount, leaves the store
unchanged, and the store holds exactly one record whose email equals e. -/
theorem register_duplicate_exact (secret₁ secret₂ : String) (salt₁ salt₂ now₁ now₂ : Nat)
    (store : Store) (name₁ email password₁ name₂ password₂ : String) (ok₁ : RegisterOk)
    (h₁ : (register secret₁ salt₁ now₁ store (some name₁) (some email) (some password₁)).1 =
      .ok ok₁)
    (hn₂ : name₂ ≠ "") (he : email ≠ "") (hp₂ : password₂ ≠ "") :
    register secret₂ salt₂ now₂
        ((register secret₁ salt₁ now₁ store (some name₁) (some email) (some password₁)).2)
        (some name₂) (some email) (some password₂) =
      (.error .DuplicateAccount,
        (register secret₁ salt₁ now₁ store (some name₁) (some email) (some password₁)).2) ∧
    ((((register secret₁ salt₁ now₁ store (some name₁) (some email) (some password₁)).2)).filter
        (fun u => u.email == email)).length = 1 := by
  by_cases hcond : email = "" ∨ password₁ = "" ∨ name₁ = ""
  · simp [register, hcond] at h₁
  · rcases hfind : findByEmail store email with _ | u
    · have hstore : (register secret₁ salt₁ now₁ store
          (some name₁) (some email) (some password₁)).2 =
          store ++ [⟨store.length, name₁, email, bcryptHash salt₁ password₁, now₁⟩] := by
        simp [register, hcond, hfind, insertOne]
      rw [hstore]
      constructor
      · have hfind₂ : findByEmail
            (store ++ [⟨store.length, name₁, email, bcryptHash salt₁ password₁, now₁⟩]) email =
            some ⟨store.length, name₁, email, bcryptHash salt₁ password₁, now₁⟩ := by
          unfold findByEmail at hfind ⊢
          rw [List.find?_append, hfind]
          simp
        simp [register, he, hn₂, hp₂, hfind₂]
      · have hnone : store.filter (fun u => u.email == email) = [] := by
          unfold findByEmail at hfind
          rw [List.filter_eq_nil_iff]
          intro a ha
          simpa using List.find?_eq_none.mp hfind a ha
        rw [List.filter_append, hnone]
        simp
    · simp [register, hcond, hfind] at h₁

/-- Witness for the amended C2: Ada registers "ada@example.com" into the empty
store, then Bob tries the same email. -/
theorem register_duplicate_exact_witness :
    register "s" 0 0 ((register "s" 0 0 [] (some "Ada") (some "ada@example.com") (some "pw")).2)
        (some "Bob") (some "ada@example.com") (some "pw2") =
      (.error .DuplicateAccount,
        (register "s" 0 0 [] (some "Ada") (some "ada@example.com") (some "pw")).2) ∧
    ((((register "s" 0 0 [] (some "Ada") (some "ada@example.com") (some "pw")).2)).filter
        (fun u => u.email == "ada@example.com")).length = 1 :=
  register_duplicate_exact "s" "s" 0 0 0 0 [] "Ada" "ada@example.com" "pw" "Bob" "pw2"
    ⟨jwtSign "s" 0 "ada@example.com" 0, ⟨0, "Ada", "ada@example.com"⟩⟩
    (by decide) (by decide) (by decide) (by decide)

/-- C9: a successful register response carries only the {id, name, email}
projection of the inserted record (paired with the token), a successful login
response carries only that projection of the found record, and the profile
route returns the stored record with the password field excluded, answering
NotFound when the record behind a valid token is absent. None of the response
types carries a password hash field. -/
theorem responses_exclude_password (secret : String) (salt now : Nat)
    (store₁ store₂ store₃ store₄ : Store)
    (n₁ e₁ p₁ e₂ p₂ : String) (u₂ u₃ : UserRecord) (t₃ t₄ : Token) (c₃ c₄ : Claims)
    (hn₁ : n₁ ≠ "") (he₁ : e₁ ≠ "") (hp₁ : p₁ ≠ "")
    (hfree : findByEmail store₁ e₁ = none)
    (he₂ : e₂ ≠ "") (hp₂ : p₂ ≠ "")
    (hhit : findByEmail store₂ e₂ = some u₂)
    (hcmp : bcryptCompare p₂ u₂.password = true)
    (hok₃ : jwtVerify secret now t₃ = .ok c₃)
    (hfound : findById store₃ c₃.userId = some u₃)
    (hok₄ : jwtVerify secret now t₄ = .ok c₄)
    (hgone : findById store₄ c₄.userId = none) :
    (register secret salt now store₁ (some n₁) (some e₁) (some p₁)).1 =
      .ok ⟨jwtSign secret store₁.length e₁ now, ⟨store₁.length, n₁, e₁⟩⟩ ∧
    login secret now store₂ (some e₂) (some p₂) =
      .ok ⟨jwtSign secret u₂.id u₂.email now, ⟨u₂.id, u₂.name, u₂.email⟩⟩ ∧
    profile secret now store₃ t₃ = .ok (dropPassword u₃) ∧
    profile secret now store₄ t₄ = .error .NotFound := by
  refine ⟨?_, ?_, ?_, ?_⟩
  · simp [register, hn₁, he₁, hp₁, hfree, insertOne]
  · simp [login, he₂, hp₂, hhit, hcmp]
  · simp [profile, hok₃, hfound]
  · simp [profile, hok₄, hgone]

/-- Witness for C9: Ada's record in a one-record store, a fresh registration
into the empty store, and the same valid token resolved against the one-record
store and the empty store. -/
theorem responses_exclude_password_witness :
    (register "s" 0 0 [] (some "Ada") (some "ada@example.com") (some "pw")).1 =
      .ok ⟨jwtSign "s" 0 "ada@example.com" 0, ⟨0, "Ada", "ada@example.com"⟩⟩ ∧
    login "s" 0 [⟨0, "Ada", "ada@example.com", bcryptHash 0 "pw", 0⟩]
        (some "ada@example.com") (some "pw") =
      .ok ⟨jwtSign "s" 0 "ada@example.com" 0, ⟨0, "Ada", "ada@example.com"⟩⟩ ∧
    profile "s" 0 [⟨0, "Ada", "ada@example.com", bcryptHash 0 "pw", 0⟩]
        (.wellFormed ⟨0, "ada@example.com", 0, 5⟩ (jwtMac "s" ⟨0, "ada@example.com", 0, 5⟩)) =
      .ok (dropPassword ⟨0, "Ada", "ada@example.com", bcryptHash 0 "pw", 0⟩) ∧
    profile "s" 0 []
        (.wellFormed ⟨0, "ada@example.com", 0, 5⟩ (jwtMac "s" ⟨0, "ada@example.com", 0, 5⟩)) =
      .error .NotFound :=
  responses_exclude_password "s" 0 0
    [] [⟨0, "Ada", "ada@example.com", bcryptHash 0 "pw", 0⟩]
    [⟨0, "Ada", "ada@example.com", bcryptHash 0 "pw", 0⟩] []
    "Ada" "ada@example.com" "pw" "ada@example.com" "pw"
    ⟨0, "Ada", "ada@example.com", bcryptHash 0 "pw", 0⟩
    ⟨0, "Ada", "ada@example.com", bcryptHash 0 "pw", 0⟩
    (.wellFormed ⟨0, "ada@example.com", 0, 5⟩ (jwtMac "s" ⟨0, "ada@example.com", 0, 5⟩))
    (.wellFormed ⟨0, "ada@example.com", 0, 5⟩ (jwtMac "s" ⟨0, "ada@example.com", 0, 5⟩))
    ⟨0, "ada@example.com", 0, 5⟩ ⟨0, "ada@example.com", 0, 5⟩
    (by decide) (by decide) (by decide) (by decide) (by decide) (by decide)
    (by decide) (by decide) (by decide) (by decide) (by decide) (by decide)

/-- C10: register is atomic with respect to the store: whenever it answers an
error the store after the request equals the store before it, and whenever it
succeeds the store after the request is the store before it with exactly one
record appended. -/
theorem register_atomic (secret : String) (salt now : Nat) (store : Store)
    (name₀ email₀ password₀ : Option String) :
    (exceptIsOk (register secret salt now store name₀ email₀ password₀).1 = false →
      (register secret salt now store name₀ email₀ password₀).2 = store) ∧
    (exceptIsOk (register secret salt now store name₀ email₀ password₀).1 = true →
      ((register secret salt now store name₀ email₀ password₀).2).dropLast = store ∧
      ((register secret salt now store name₀ email₀ password₀).2).length =
        store.length + 1) := by
  rcases name₀ with _ | n <;> rcases email₀ with _ | e <;> rcases password₀ with _ | p <;>
    simp [register, exceptIsOk]
  by_cases hcond : e = "" ∨ p = "" ∨ n = ""
  · simp [hcond, exceptIsOk]
  · rcases hfind : findByEmail store e with _ | u <;>
      simp [hcond, hfind, insertOne, exceptIsOk]

/-- Witness for C7: register with an empty email and login with a missing
password both answer InvalidInput. -/
theorem validation_before_store_witness :
    register "s" 0 0 [] (some "Ada") (some "") (some "pw") = (.error .InvalidInput, []) ∧
    login "s" 0 [] (some "e@x") none = .error .InvalidInput :=
  ⟨(validation_before_store "s" 0 0 [] (some "Ada") (some "") (some "pw")).1.mpr
      (by decide),
   (validation_before_store "s" 0 0 [] none (some "e@x") none).2.mpr (by decide)⟩

/-- Witness for C10: a register refused for a missing name leaves the empty
store empty, and a successful register into the empty store appends exactly
one record. -/
theorem register_atomic_witness :
    (register "s" 0 0 [] (some "") (some "e@x") (some "pw")).2 = [] ∧
    (((register "s" 0 0 [] (some "Ada") (some "e@x") (some "pw")).2).dropLast = [] ∧
     ((register "s" 0 0 [] (some "Ada") (some "e@x") (some "pw")).2).length = 1) :=
  ⟨(register_atomic "s" 0 0 [] (some "") (some "e@x") (some "pw")).1 (by decide),
   (register_atomic "s" 0 0 [] (some "Ada") (some "e@x") (some "pw")).2 (by decide)⟩

end AuthKernel
